import Mathlib

/-!
Shallow embedding of the flash-loan arbitrage bot's Opportunity Scanner and
Trade Executor (server/opportunityScanner.ts and server/tradeExecutor.ts).

Conventions of the embedding:
* JavaScript floating-point numbers are modelled as rationals (`ℚ`); the
  source performs no operation whose float rounding any verified statement
  depends on.
* `Math.floor` / `BigInt(...)` truncation is modelled with `Int.floor`
  (`⌊·⌋`), matching JS `Math.floor` semantics (round toward minus infinity).
* Division in `ℚ` is total with `x / 0 = 0`; the source would produce `NaN`
  there.  No verified statement evaluates at such a degenerate input.
* Millisecond timestamps are `ℤ` (JS `Date.now()` values).
* External collaborators (chain RPC, quote source, storage, randomness)
  are passed in as explicit function parameters; their invocations that
  touch the chain are recorded in an explicit call trace.
-/

/-- Token metadata as carried in quotes and opportunities
(`tokenIn` / `tokenOut` of `ArbitrageOpportunity`). -/
structure TokenInfo where
  address : String
  symbol : String
  decimals : ℕ
deriving DecidableEq, Repr

/-- `ArbitrageOpportunity` from server/opportunityScanner.ts.  The source
stores `flashLoanAmount` as a decimal string; it is kept as the rational it
denotes.  `route` is kept as the two address lists the source builds. -/
structure ArbitrageOpportunity where
  id : String
  tokenIn : TokenInfo
  tokenOut : TokenInfo
  buyDex : String
  sellDex : String
  buyPrice : ℚ
  sellPrice : ℚ
  profitPercent : ℚ
  netProfitPercent : ℚ
  estimatedProfitUsd : ℚ
  flashLoanAmount : ℚ
  estimatedGasCostUsd : ℚ
  flashLoanFeeUsd : ℚ
  routeBuy : List String
  routeSell : List String
  timestamp : ℤ
  isValid : Bool
deriving DecidableEq, Repr

/-- The subset of `ScannerConfig` the comparison logic reads. -/
structure ScannerConfig where
  minProfitPercent : ℚ
  minNetProfitPercent : ℚ
  minProfitUsd : ℚ
  maxGasPriceGwei : ℚ
deriving DecidableEq, Repr

/-- One settled venue quote (`dexQuotes[i].value` in `scanTokenPair`):
`fromAmount`, `toAmount` are the decimal strings the source parses with
`parseFloat`. -/
structure Quote where
  dex : String
  fromAmount : ℚ
  toAmount : ℚ
  fromToken : TokenInfo
  toToken : TokenInfo
deriving DecidableEq, Repr

/-- `price = parseFloat(quote.toAmount) / parseFloat(quote.fromAmount)`. -/
def Quote.price (q : Quote) : ℚ := q.toAmount / q.fromAmount

/-- `estimatedGas = 500000` (fixed gas-unit estimate in `scanTokenPair`). -/
def estimatedGas : ℤ := 500000

/-- `maticPriceUsd = 0.7` (fixed native-token USD price in `scanTokenPair`). -/
def maticPriceUsd : ℚ := 7 / 10

/-- `gasCostUsd` as computed in `scanTokenPair`:
`gasCostWei = BigInt(500000) * BigInt(Math.floor(gasGwei * 1e9))`,
`gasCostEth = formatEther(gasCostWei)`, `gasCostUsd = gasCostEth * 0.7`. -/
def gasCostUsd (gasGwei : ℚ) : ℚ :=
  ((estimatedGas * ⌊gasGwei * 1000000000⌋ : ℤ) : ℚ) / 10 ^ 18 * maticPriceUsd

/-- `flashLoanFeePercent = 0.0005` (0.05% Aave fee). -/
def flashLoanFeePercent : ℚ := 5 / 10000

/-- The body of the inner double loop of `scanTokenPair` for one pair of
fulfilled quotes: computes prices, gross spread, costs and net profit, and
creates an `ArbitrageOpportunity` exactly when all three thresholds hold.
`now` is the `Date.now()` the candidate is stamped with and `rnd` the random
id suffix. -/
def comparePair (cfg : ScannerConfig) (loanAmount gasGwei : ℚ)
    (tokenIn tokenOut : String) (now : ℤ) (rnd : String)
    (q1 q2 : Quote) : Option ArbitrageOpportunity :=
  let price1 := q1.price
  let price2 := q2.price
  let priceDiff := |price1 - price2|
  let avgPrice := (price1 + price2) / 2
  let profitPercent := priceDiff / avgPrice * 100
  let gasUsd := gasCostUsd gasGwei
  let flashLoanFeeUsd := loanAmount * flashLoanFeePercent
  let grossProfitUsd := priceDiff * loanAmount
  let netProfitUsd := grossProfitUsd - gasUsd - flashLoanFeeUsd
  let netProfitPercent := netProfitUsd / loanAmount * 100
  if profitPercent ≥ cfg.minProfitPercent ∧
      netProfitPercent ≥ cfg.minNetProfitPercent ∧
      netProfitUsd ≥ cfg.minProfitUsd then
    some
      { id := tokenIn ++ "-" ++ tokenOut ++ "-" ++ toString now ++ "-" ++ rnd
        tokenIn :=
          { address := tokenIn
            symbol := q1.fromToken.symbol
            decimals := q1.fromToken.decimals }
        tokenOut :=
          { address := tokenOut
            symbol := q1.toToken.symbol
            decimals := q1.toToken.decimals }
        buyDex := if price1 < price2 then q1.dex else q2.dex
        sellDex := if price1 < price2 then q2.dex else q1.dex
        buyPrice := min price1 price2
        sellPrice := max price1 price2
        profitPercent := profitPercent
        netProfitPercent := netProfitPercent
        estimatedProfitUsd := netProfitUsd
        flashLoanAmount := loanAmount
        estimatedGasCostUsd := gasUsd
        flashLoanFeeUsd := flashLoanFeeUsd
        routeBuy := [tokenIn, tokenOut]
        routeSell := [tokenOut, tokenIn]
        timestamp := now
        isValid := true }
  else none

/-- **C1.** A candidate opportunity is created (and hence inserted into the
Registry, since `scan` inserts every element of `newOpportunities`) if and
only if the gross profit percent, the net profit percent, and the estimated
net profit in USD simultaneously reach their configured thresholds. -/
theorem candidate_iff_all_three_thresholds
    (cfg : ScannerConfig) (loanAmount gasGwei : ℚ)
    (tokenIn tokenOut : String) (now : ℤ) (rnd : String) (q1 q2 : Quote) :
    (comparePair cfg loanAmount gasGwei tokenIn tokenOut now rnd q1 q2).isSome ↔
      (|q1.price - q2.price| / ((q1.price + q2.price) / 2) * 100
          ≥ cfg.minProfitPercent ∧
        (|q1.price - q2.price| * loanAmount - gasCostUsd gasGwei -
              loanAmount * flashLoanFeePercent) / loanAmount * 100
          ≥ cfg.minNetProfitPercent ∧
        |q1.price - q2.price| * loanAmount - gasCostUsd gasGwei -
            loanAmount * flashLoanFeePercent
          ≥ cfg.minProfitUsd) := by
  unfold comparePair
  by_cases h :
      |q1.price - q2.price| / ((q1.price + q2.price) / 2) * 100
          ≥ cfg.minProfitPercent ∧
        (|q1.price - q2.price| * loanAmount - gasCostUsd gasGwei -
              loanAmount * flashLoanFeePercent) / loanAmount * 100
          ≥ cfg.minNetProfitPercent ∧
        |q1.price - q2.price| * loanAmount - gasCostUsd gasGwei -
            loanAmount * flashLoanFeePercent
          ≥ cfg.minProfitUsd
  · simp [h]
  · simp [h]

/-- The computed gas cost is nonnegative whenever the gas price is. -/
theorem gasCostUsd_nonneg (g : ℚ) (hg : 0 ≤ g) : 0 ≤ gasCostUsd g := by
  unfold gasCostUsd estimatedGas maticPriceUsd
  have h1 : (0 : ℤ) ≤ 500000 * ⌊g * 1000000000⌋ := by
    have hf : (0 : ℤ) ≤ ⌊g * 1000000000⌋ :=
      Int.floor_nonneg.mpr (by positivity)
    exact mul_nonneg (by norm_num) hf
  have h2 : (0 : ℚ) ≤ ((500000 * ⌊g * 1000000000⌋ : ℤ) : ℚ) := by
    exact_mod_cast h1
  exact mul_nonneg (div_nonneg h2 (by norm_num)) (by norm_num)

/-- **C5.** Every created candidate's stored economics are exactly the
formulas of `scanTokenPair`: gross spread percent is
`|price1 - price2| / average * 100`, the net profit in USD is the gross
spread value (`|Δprice| * notional`) minus the stored gas cost minus the
stored flash-loan fee (the fixed basis-point rate of the notional), and
`netProfitPercent` is `netProfitUsd / notional * 100` — all derived from the
stored inputs, never independent of them. -/
theorem netProfit_derived_from_inputs
    (cfg : ScannerConfig) (loanAmount gasGwei : ℚ)
    (tokenIn tokenOut : String) (now : ℤ) (rnd : String) (q1 q2 : Quote)
    (o : ArbitrageOpportunity)
    (h : comparePair cfg loanAmount gasGwei tokenIn tokenOut now rnd q1 q2 =
      some o) :
    o.profitPercent = |q1.price - q2.price| / ((q1.price + q2.price) / 2) * 100 ∧
    o.flashLoanAmount = loanAmount ∧
    o.estimatedGasCostUsd = gasCostUsd gasGwei ∧
    o.flashLoanFeeUsd = o.flashLoanAmount * flashLoanFeePercent ∧
    o.estimatedProfitUsd =
      |q1.price - q2.price| * o.flashLoanAmount - o.estimatedGasCostUsd -
        o.flashLoanFeeUsd ∧
    o.netProfitPercent = o.estimatedProfitUsd / o.flashLoanAmount * 100 := by
  unfold comparePair at h
  dsimp only at h
  split at h
  · obtain rfl := Option.some.inj h
    exact ⟨rfl, rfl, rfl, rfl, rfl, rfl⟩
  · simp at h

/-- Concrete quote with price 1.000 used by the C6 scenario. -/
def quoteA : Quote :=
  { dex := "DexA", fromAmount := 10000, toAmount := 10000
    fromToken := { address := "0xIN", symbol := "USDC", decimals := 6 }
    toToken := { address := "0xOUT", symbol := "USDT", decimals := 6 } }

/-- Concrete quote with price 1.012 used by the C6 scenario. -/
def quoteB : Quote :=
  { dex := "DexB", fromAmount := 10000, toAmount := 10120
    fromToken := { address := "0xIN", symbol := "USDC", decimals := 6 }
    toToken := { address := "0xOUT", symbol := "USDT", decimals := 6 } }

/-- Thresholds of the C6 scenario: gross 0.3 %, net 0.15 %, minimum $1.50,
gas ceiling 60 Gwei. -/
def scenarioConfig : ScannerConfig :=
  { minProfitPercent := 3 / 10, minNetProfitPercent := 15 / 100
    minProfitUsd := 3 / 2, maxGasPriceGwei := 60 }

/-- Gas price for which the computed gas cost is ≈ $3
(`gasCostUsd scenarioGasGwei = 2.9999999999998`). -/
def scenarioGasGwei : ℚ := 8571428571428 / 10 ^ 9

/-- **C6 counterexample.** At the claim's own scenario (quotes 1.000 and
1.012, notional 10,000, gas cost ≈ $3, loan fee $5, thresholds
0.3 % / 0.15 % / $1.50) the created opportunity's net profit is
≈ $112 (priceDiff × notional − costs = $120 − $8), not ≈ $104 as claimed:
the stored `estimatedProfitUsd` exceeds $105. -/
theorem scenario_net_profit_is_112_not_104 :
    Option.map ArbitrageOpportunity.estimatedProfitUsd
        (comparePair scenarioConfig 10000 scenarioGasGwei "0xIN" "0xOUT" 0 "r"
          quoteA quoteB) =
      some (1120000000000002 / 10 ^ 13) ∧
    (1120000000000002 / 10 ^ 13 : ℚ) > 105 := by
  have hgas : gasCostUsd scenarioGasGwei = 29999999999998 / 10 ^ 13 := by
    norm_num [gasCostUsd, scenarioGasGwei, estimatedGas, maticPriceUsd]
  have habs : |quoteA.price - quoteB.price| = 3 / 250 := by
    have hd : quoteA.price - quoteB.price = -(3 / 250) := by
      norm_num [quoteA, quoteB, Quote.price]
    rw [hd, abs_neg, abs_of_pos (by norm_num : (0 : ℚ) < 3 / 250)]
  constructor
  · unfold comparePair
    dsimp only
    rw [if_pos]
    · simp only [Option.map_some']
      norm_num [hgas, habs, flashLoanFeePercent]
    · have habs2 : |(3 : ℚ) / 250| = 3 / 250 :=
        abs_of_pos (by norm_num : (0 : ℚ) < 3 / 250)
      refine ⟨?_, ?_, ?_⟩ <;>
        norm_num [hgas, habs, habs2, quoteA, quoteB, Quote.price,
          scenarioConfig, flashLoanFeePercent]
  · norm_num

/-- **C6 (amended).** Whenever a qualifying candidate is created from two
venue quotes — with a positive loan notional, a nonnegative gas price and a
nonnegative minimum-USD threshold, as in every configuration the source can
produce — the two quoted prices necessarily differ, the buy venue is the
quote with the lower price, the sell venue is the quote with the higher
price (they come from the two distinct quotes), and
`buyPrice = min price1 price2`, `sellPrice = max price1 price2`.
(In the claim's scenario the code yields net profit ≈ $120 − $8 = $112,
not $104; see the counterexample theorem.) -/
theorem buy_low_sell_high
    (cfg : ScannerConfig) (loanAmount gasGwei : ℚ)
    (tokenIn tokenOut : String) (now : ℤ) (rnd : String) (q1 q2 : Quote)
    (o : ArbitrageOpportunity)
    (hloan : 0 < loanAmount) (hgg : 0 ≤ gasGwei)
    (hmin : 0 ≤ cfg.minProfitUsd)
    (h : comparePair cfg loanAmount gasGwei tokenIn tokenOut now rnd q1 q2 =
      some o) :
    q1.price ≠ q2.price ∧
    (q1.price < q2.price → o.buyDex = q1.dex ∧ o.sellDex = q2.dex) ∧
    (q2.price < q1.price → o.buyDex = q2.dex ∧ o.sellDex = q1.dex) ∧
    o.buyPrice = min q1.price q2.price ∧
    o.sellPrice = max q1.price q2.price := by
  unfold comparePair at h
  dsimp only at h
  split at h
  case isTrue hc =>
    obtain rfl := Option.some.inj h
    have hgasn : 0 ≤ gasCostUsd gasGwei := gasCostUsd_nonneg gasGwei hgg
    have hfee : 0 < loanAmount * flashLoanFeePercent := by
      have hp : (0 : ℚ) < flashLoanFeePercent := by
        norm_num [flashLoanFeePercent]
      exact mul_pos hloan hp
    have hpos : 0 < |q1.price - q2.price| * loanAmount := by
      have h3 := hc.2.2
      linarith
    have hne : q1.price ≠ q2.price := by
      intro heq
      rw [heq, sub_self, abs_zero, zero_mul] at hpos
      exact lt_irrefl 0 hpos
    refine ⟨hne, ?_, ?_, rfl, rfl⟩
    · intro hlt
      exact ⟨if_pos hlt, if_pos hlt⟩
    · intro hlt
      exact ⟨if_neg (lt_asymm hlt), if_neg (lt_asymm hlt)⟩
  case isFalse => simp at h

/-- Quote with price 1 for the `buy_low_sell_high` witness. -/
def witQuote1 : Quote :=
  { dex := "VenueLow", fromAmount := 1, toAmount := 1
    fromToken := { address := "A", symbol := "TKA", decimals := 18 }
    toToken := { address := "B", symbol := "TKB", decimals := 18 } }

/-- Quote with price 2 for the `buy_low_sell_high` witness. -/
def witQuote2 : Quote :=
  { dex := "VenueHigh", fromAmount := 1, toAmount := 2
    fromToken := { address := "A", symbol := "TKA", decimals := 18 }
    toToken := { address := "B", symbol := "TKB", decimals := 18 } }

/-- The opportunity `comparePair` creates from `witQuote1` and `witQuote2`
at loan 10000, gas price 0. -/
def witOpp : ArbitrageOpportunity :=
  { id := "A-B-0-r"
    tokenIn := { address := "A", symbol := "TKA", decimals := 18 }
    tokenOut := { address := "B", symbol := "TKB", decimals := 18 }
    buyDex := "VenueLow", sellDex := "VenueHigh"
    buyPrice := 1, sellPrice := 2
    profitPercent := 200 / 3
    netProfitPercent := 9995 / 100
    estimatedProfitUsd := 9995
    flashLoanAmount := 10000
    estimatedGasCostUsd := 0
    flashLoanFeeUsd := 5
    routeBuy := ["A", "B"], routeSell := ["B", "A"]
    timestamp := 0, isValid := true }

/-- `comparePair` at the witness input evaluates to `witOpp`. -/
theorem comparePair_wit_eval :
    comparePair scenarioConfig 10000 0 "A" "B" 0 "r" witQuote1 witQuote2 =
      some witOpp := by
  have hgas0 : gasCostUsd 0 = 0 := by
    norm_num [gasCostUsd]
  have habs : |witQuote1.price - witQuote2.price| = 1 := by
    have hd : witQuote1.price - witQuote2.price = -1 := by
      norm_num [witQuote1, witQuote2, Quote.price]
    rw [hd, abs_neg, abs_one]
  unfold comparePair
  dsimp only
  rw [if_pos]
  · congr 1
    rw [ArbitrageOpportunity.mk.injEq]
    refine ⟨by decide, rfl, rfl, ?_, ?_, ?_, ?_, ?_, ?_, ?_, rfl, ?_, ?_,
      rfl, rfl, rfl, rfl⟩ <;>
      norm_num [witQuote1, witQuote2, Quote.price, witOpp, habs, hgas0,
        flashLoanFeePercent, scenarioConfig]
  · refine ⟨?_, ?_, ?_⟩ <;>
      norm_num [witQuote1, witQuote2, Quote.price, habs, hgas0,
        flashLoanFeePercent, scenarioConfig]

/-- Witness for `buy_low_sell_high`: at the concrete input all hypotheses
hold and the created candidate buys at the lower-price venue and sells at
the higher-price one. -/
theorem buy_low_sell_high_witness :
    (0 : ℚ) < 10000 ∧ (0 : ℚ) ≤ 0 ∧ (0 : ℚ) ≤ scenarioConfig.minProfitUsd ∧
    witQuote1.price ≠ witQuote2.price ∧
    witOpp.buyDex = witQuote1.dex ∧ witOpp.sellDex = witQuote2.dex := by
  have h := buy_low_sell_high scenarioConfig 10000 0 "A" "B" 0 "r"
    witQuote1 witQuote2 witOpp (by norm_num) le_rfl
    (by norm_num [scenarioConfig]) comparePair_wit_eval
  have hlt : witQuote1.price < witQuote2.price := by
    norm_num [witQuote1, witQuote2, Quote.price]
  exact ⟨by norm_num, le_rfl, by norm_num [scenarioConfig], h.1,
    (h.2.1 hlt).1, (h.2.1 hlt).2⟩

/-- Witness for `netProfit_derived_from_inputs` at the concrete witness
input. -/
theorem netProfit_derived_witness :
    comparePair scenarioConfig 10000 0 "A" "B" 0 "r" witQuote1 witQuote2 =
      some witOpp ∧
    witOpp.netProfitPercent =
      witOpp.estimatedProfitUsd / witOpp.flashLoanAmount * 100 := by
  have h := netProfit_derived_from_inputs scenarioConfig 10000 0 "A" "B" 0
    "r" witQuote1 witQuote2 witOpp comparePair_wit_eval
  exact ⟨comparePair_wit_eval, h.2.2.2.2.2⟩

/-!  ## The Opportunity Registry (`this.opportunities` and `scan`)  -/

/-- `this.opportunities.set(opp.id, opp)`: keyed insertion replacing any
entry with the same id (JS `Map.set`). -/
def registrySet (reg : List ArbitrageOpportunity) (o : ArbitrageOpportunity) :
    List ArbitrageOpportunity :=
  (reg.filter (fun e => e.id != o.id)) ++ [o]

/-- The staleness window of the Registry (`60000` ms in `scan`). -/
def staleWindowMs : ℤ := 60000

/-- The eviction pass at the end of `scan`: every entry with
`now - opp.timestamp > 60000` is deleted. -/
def evictStale (reg : List ArbitrageOpportunity) (now : ℤ) :
    List ArbitrageOpportunity :=
  reg.filter (fun o => !(decide (now - o.timestamp > staleWindowMs)))

/-- What one `scan` cycle does with its freshly found candidates after the
comparison phase: registry state plus the list handed to the executor. -/
structure ScanStepResult where
  registry : List ArbitrageOpportunity
  dispatched : List ArbitrageOpportunity
deriving Repr

/-- The registry-updating tail of `scan`: every new opportunity is inserted
(`opportunities.set`) and dispatched to `tradeExecutor.executeArbitrageTrade`
(in that loop, in order), and only afterwards does the eviction pass run,
reading the clock at `evictNow`. -/
def scanUpdate (reg : List ArbitrageOpportunity)
    (newOpps : List ArbitrageOpportunity) (evictNow : ℤ) : ScanStepResult :=
  let inserted := newOpps.foldl registrySet reg
  { registry := evictStale inserted evictNow, dispatched := newOpps }

/-- `getOpportunities()` returns the registry's values. -/
def getOpportunities (reg : List ArbitrageOpportunity) :
    List ArbitrageOpportunity := reg

/-- An insertion for a different id keeps an entry. -/
theorem mem_registrySet_of_ne (reg : List ArbitrageOpportunity)
    (o a : ArbitrageOpportunity) (ho : o ∈ reg) (hne : a.id ≠ o.id) :
    o ∈ registrySet reg a := by
  unfold registrySet
  refine List.mem_append.mpr (Or.inl ?_)
  refine List.mem_filter.mpr ⟨ho, ?_⟩
  simpa [bne_iff_ne] using fun h => hne h.symm

/-- Folding insertions whose ids all differ from `o.id` keeps `o`. -/
theorem mem_foldl_registrySet_of_forall_ne (l : List ArbitrageOpportunity)
    (reg : List ArbitrageOpportunity) (o : ArbitrageOpportunity)
    (ho : o ∈ reg) (hl : ∀ a ∈ l, a.id ≠ o.id) :
    o ∈ l.foldl registrySet reg := by
  induction l generalizing reg with
  | nil => exact ho
  | cons a t ih =>
      exact ih (registrySet reg a)
        (mem_registrySet_of_ne reg o a ho (hl a (List.mem_cons_self a t)))
        (fun b hb => hl b (List.mem_cons_of_mem a hb))

/-- A newly inserted opportunity whose id no later insertion reuses is in
the folded registry. -/
theorem mem_foldl_registrySet_of_mem (l : List ArbitrageOpportunity)
    (reg : List ArbitrageOpportunity) (o : ArbitrageOpportunity)
    (ho : o ∈ l) (hnodup : (l.map ArbitrageOpportunity.id).Nodup) :
    o ∈ l.foldl registrySet reg := by
  induction l generalizing reg with
  | nil => cases ho
  | cons a t ih =>
      rw [List.map_cons, List.nodup_cons] at hnodup
      rcases List.mem_cons.mp ho with rfl | hmem
      · refine mem_foldl_registrySet_of_forall_ne t (registrySet reg o) o
          ?_ ?_
        · unfold registrySet
          exact List.mem_append.mpr (Or.inr (List.mem_singleton.mpr rfl))
        · intro b hb hbid
          exact hnodup.1 (hbid ▸ List.mem_map_of_mem ArbitrageOpportunity.id hb)
      · exact ih (registrySet reg a) hmem hnodup.2

/-- An entry survives `evictStale` iff it is not older than the window. -/
theorem mem_evictStale (reg : List ArbitrageOpportunity)
    (now : ℤ) (o : ArbitrageOpportunity) :
    o ∈ evictStale reg now ↔ o ∈ reg ∧ ¬(now - o.timestamp > staleWindowMs) := by
  unfold evictStale
  rw [List.mem_filter]
  simp

/-- **C7.** On every scan cycle, entries older than the 60-second staleness
window are absent from `getOpportunities()` after the eviction pass — the
eviction predicate reads only the timestamp, regardless of execution
status — while the eviction pass runs only after that cycle's insertions, so
a fresh candidate (one created within the staleness window of the eviction
clock, as always holds for a cycle stamping and evicting in the same tick)
is never evicted by the cycle that created it. -/
theorem stale_evicted_fresh_kept
    (reg newOpps : List ArbitrageOpportunity) (evictNow : ℤ)
    (o : ArbitrageOpportunity)
    (hnodup : (newOpps.map ArbitrageOpportunity.id).Nodup) :
    (evictNow - o.timestamp > staleWindowMs →
      o ∉ getOpportunities (scanUpdate reg newOpps evictNow).registry) ∧
    (o ∈ newOpps → evictNow - o.timestamp ≤ staleWindowMs →
      o ∈ getOpportunities (scanUpdate reg newOpps evictNow).registry) := by
  constructor
  · intro hold hmem
    have := (mem_evictStale _ evictNow o).mp hmem
    exact this.2 hold
  · intro hmem hfresh
    refine (mem_evictStale _ evictNow o).mpr ⟨?_, by omega⟩
    exact mem_foldl_registrySet_of_mem newOpps reg o hmem hnodup

/-- Witness for `stale_evicted_fresh_kept`: a registry holding one
70-second-old entry and one fresh candidate; after the cycle the old entry
is gone and the fresh one present. -/
theorem stale_evicted_fresh_kept_witness :
    ((70001 : ℤ) - witOpp.timestamp > staleWindowMs →
      witOpp ∉ getOpportunities (scanUpdate [witOpp] [] 70001).registry) ∧
    (witOpp ∈ [witOpp] → (0 : ℤ) - witOpp.timestamp ≤ staleWindowMs →
      witOpp ∈ getOpportunities (scanUpdate [] [witOpp] 0).registry) := by
  constructor
  · exact (stale_evicted_fresh_kept [witOpp] [] 70001 witOpp (by simp)).1
  · exact fun h1 h2 =>
      (stale_evicted_fresh_kept [] [witOpp] 0 witOpp (by simp)).2 h1 h2

/-!  ## The Trade Executor (server/tradeExecutor.ts)  -/

/-- JS whitespace test used by `String.prototype.trim` (restricted to the
ASCII whitespace a configuration value can contain). -/
def isSpaceChar (c : Char) : Bool := c = ' ' || c = '\t' || c = '\n' || c = '\r'

/-- `String.prototype.trim`, modelled on the character list. -/
def strTrim (s : String) : String :=
  ⟨((s.data.dropWhile isSpaceChar).reverse.dropWhile isSpaceChar).reverse⟩

/-- `s.startsWith('0x')`, modelled on the character list. -/
def strStartsWith0x (s : String) : Bool :=
  match s.data with
  | '0' :: 'x' :: _ => true
  | _ => false

/-- 0x-prefix normalization of the private key:
`if (privateKey && !privateKey.startsWith('0x')) privateKey = '0x' + privateKey`. -/
def normalizeKey (k : String) : String :=
  if strStartsWith0x k then k else "0x" ++ k

/-- The bot-configuration fields `executeArbitrageTrade` reads.  Absent or
falsy (empty-string) environment values are modelled as `none`. -/
structure BotConfig where
  enableRealTrading : Bool
  networkMode : String
  privateKey : Option String
  oneinchApiKey : Option String
  flashLoanContract : Option String
  maxGasPriceGwei : Option ℚ
deriving Repr

/-- Process-environment fallbacks read by `executeArbitrageTrade`
(`process.env.PRIVATE_KEY`, `process.env.ARBITRAGE_CONTRACT`); an unset or
empty variable is `none`. -/
structure Env where
  privateKeyEnv : Option String
  arbitrageContractEnv : Option String
deriving Repr

/-- `config.privateKey?.trim() || process.env.PRIVATE_KEY`. -/
def resolvedKey (config : BotConfig) (env : Env) : Option String :=
  match config.privateKey with
  | some k => if strTrim k = "" then env.privateKeyEnv else some (strTrim k)
  | none => env.privateKeyEnv

/-- The private key after resolution and 0x normalization. -/
def resolvedNormalizedKey (config : BotConfig) (env : Env) : Option String :=
  (resolvedKey config env).map normalizeKey

/-- A `buildSwapTransaction` request as assembled by
`executeArbitrageTrade`: token addresses, integer amount, the wallet
address in the `from` field (`fromAddress` here), slippage 1 %. -/
structure SwapRequest where
  src : String
  dst : String
  amount : ℤ
  fromAddress : String
  slippage : ℕ
deriving DecidableEq, Repr

/-- The `tx` part of a swap-transaction response (`tx?.to`, `tx?.data`;
`to` and `data` are reserved words here, hence `toAddr` / `callData`). -/
structure SwapTx where
  toAddr : Option String
  callData : Option String
deriving DecidableEq, Repr

/-- A `buildSwapTransaction` response. -/
structure SwapResponse where
  dex : String
  fromAmount : ℚ
  toAmount : ℚ
  tx : SwapTx
deriving DecidableEq, Repr

/-- Result of `aaveFlashLoanV3.executeFlashLoan`. -/
structure FlashLoanResult where
  success : Bool
  txHash : Option String
  error : Option String
deriving DecidableEq, Repr

/-- The arbitrage parameters ABI-encoded for the smart contract
(buy leg target and payload, sell leg target and payload, minimum profit). -/
structure ArbParams where
  buyRouter : String
  buyData : String
  sellRouter : String
  sellData : String
  minProfit : ℤ
deriving DecidableEq, Repr

/-- One chain-RPC interaction performed by the executor. -/
inductive ChainCall
  | nativeBalance (address : String)
  | gasPrice
  | getCode (address : String)
  | flashLoan (asset : String) (amount : ℤ) (receiver : String)
deriving DecidableEq, Repr

/-- The external world of one execution attempt: chain-RPC responses, the
quote/route service, wallet-address derivation from a private key
(`new ethers.Wallet(pk).address`), and the two `Math.random` hex fragments
used for placeholder transaction ids. -/
structure World where
  gasPriceGwei : ℚ
  nativeBalanceOf : String → ℚ
  codeAt : String → String
  quoteService : SwapRequest → Except String SwapResponse
  flashLoanSvc : String → ℤ → String → ArbParams → String → FlashLoanResult
  addressOf : String → String
  rand1 : String
  rand2 : String

/-- Classified failure causes of `executeArbitrageTrade` (the thrown
errors, in source order). -/
inductive ExecErr
  | configNotFound
  | realTradingDisabled
  | invalidKeyFormat
  | keyNotConfigured
  | gasTooHigh
  | apiKeyMissing
  | keyRequired
  | buildBuyFailed
  | buildSellFailed
  | contractNotConfigured
  | invalidBuyRouter
  | invalidSellRouter
  | buyDataMissing
  | sellDataMissing
  | contractNotDeployed
  | flashLoanFailed
deriving DecidableEq, Repr

/-- `TradeExecutionResult` enriched with the chain-call trace and the
quote-service requests the attempt issued. -/
structure ExecOutcome where
  success : Bool
  txHash : Option String
  error : Option ExecErr
  chainCalls : List ChainCall
  swapRequests : List SwapRequest
deriving Repr

/-- A failed attempt (the catch block: `success: false` plus the error). -/
def failOutcome (e : ExecErr) (calls : List ChainCall)
    (reqs : List SwapRequest) : ExecOutcome :=
  { success := false, txHash := none, error := some e, chainCalls := calls,
    swapRequests := reqs }

/-- `DEX_ROUTERS` table of `executeArbitrageTrade`. -/
def dexRouter (name : String) : Option String :=
  if name = "1inch" then some "0x1111111254EEB25477B68fb85Ed929f73A960582"
  else if name = "QuickSwap" then
    some "0xa5E0829CaCEd8fFDD4De3c43696c57F7D7A678ff"
  else if name = "Uniswap V3" then
    some "0xE592427A0AEce92De3Edee1F18E0157C05861564"
  else if name = "SushiSwap" then
    some "0x1b02dA8Cb0d097eB8D57A175b88c7D8b47997506"
  else if name = "Curve" then
    some "0x445FE580eF8d70FF569aB36e80c647af338db351"
  else if name = "Balancer" then
    some "0xBA12222222228d8Ba445958a75a0704d566BF2C8"
  else none

/-- JS `a || b` on an optional string and a fallback (empty string falsy). -/
def orElseStr (a : Option String) (b : String) : String :=
  match a with
  | some s => if s = "" then b else s
  | none => b

/-- `ethers.isAddress`, modelled as 0x-prefixed 40-hex-digit syntax
(checksum validation of mixed-case addresses is not modelled). -/
def isEthAddress (s : String) : Bool :=
  s.length = 42 && strStartsWith0x s &&
    (s.data.drop 2).all
      (fun c => c.isDigit || ('a' ≤ c && c ≤ 'f') || ('A' ≤ c && c ≤ 'F'))

/-- `!swap.tx?.data` (absent or empty call payload). -/
def txData (t : SwapTx) : Option String :=
  match t.callData with
  | some d => if d = "" then none else some d
  | none => none

/-- `config.flashLoanContract || process.env.ARBITRAGE_CONTRACT`. -/
def contractAddr (config : BotConfig) (env : Env) : Option String :=
  match config.flashLoanContract with
  | some c => if c = "" then env.arbitrageContractEnv else some c
  | none => env.arbitrageContractEnv

/-- The tail of the real branch after both swap routes resolved: contract
resolution, router-address and call-payload validation, deployed-code
check, parameter encoding and the flash-loan invocation. -/
def afterSwaps (config : BotConfig) (env : Env) (w : World)
    (opp : ArbitrageOpportunity) (calls : List ChainCall) (pk : String)
    (buyReq sellReq : SwapRequest) (buySwap sellSwap : SwapResponse) :
    ExecOutcome :=
  let reqs := [buyReq, sellReq]
  match contractAddr config env with
  | none => failOutcome .contractNotConfigured calls reqs
  | some arbitrageContract =>
      let buyRouter :=
        orElseStr buySwap.tx.toAddr
          (orElseStr (dexRouter opp.buyDex) arbitrageContract)
      let sellRouter :=
        orElseStr sellSwap.tx.toAddr
          (orElseStr (dexRouter opp.sellDex) arbitrageContract)
      if ¬isEthAddress buyRouter then failOutcome .invalidBuyRouter calls reqs
      else if ¬isEthAddress sellRouter then
        failOutcome .invalidSellRouter calls reqs
      else
        match txData buySwap.tx with
        | none => failOutcome .buyDataMissing calls reqs
        | some buyData =>
            match txData sellSwap.tx with
            | none => failOutcome .sellDataMissing calls reqs
            | some sellData =>
                let calls2 := calls ++ [ChainCall.getCode arbitrageContract]
                let code := w.codeAt arbitrageContract
                if code = "0x" ∨ code = "0x0" then
                  failOutcome .contractNotDeployed calls2 reqs
                else
                  let loanAmount := buyReq.amount
                  let minProfitAmount := loanAmount * 10 / 10000
                  let params : ArbParams :=
                    { buyRouter := buyRouter, buyData := buyData
                      sellRouter := sellRouter, sellData := sellData
                      minProfit := minProfitAmount }
                  let calls3 := calls2 ++
                    [ChainCall.flashLoan opp.tokenIn.address loanAmount
                      arbitrageContract]
                  let result := w.flashLoanSvc opp.tokenIn.address loanAmount
                    arbitrageContract params pk
                  if result.success then
                    { success := true
                      txHash :=
                        some (result.txHash.getD ("0x" ++ w.rand1 ++ w.rand2))
                      error := none, chainCalls := calls3,
                      swapRequests := reqs }
                  else failOutcome .flashLoanFailed calls3 reqs

/-- The real-trading branch of `executeArbitrageTrade` (step 7 onward):
1inch API-key check, wallet-address derivation, and the two
`buildSwapTransaction` requests (sell leg sized by the buy leg's output;
leg B is never requested when leg A fails). -/
def realBranch (config : BotConfig) (env : Env) (w : World)
    (opp : ArbitrageOpportunity) (calls : List ChainCall)
    (pk? : Option String) : ExecOutcome :=
  if strTrim (config.oneinchApiKey.getD "") = "" then
    failOutcome .apiKeyMissing calls []
  else
    let loanAmount : ℤ :=
      ⌊opp.flashLoanAmount * 10 ^ opp.tokenIn.decimals⌋
    match pk? with
    | none => failOutcome .keyRequired calls []
    | some pk =>
        let walletAddress := w.addressOf pk
        let buyReq : SwapRequest :=
          { src := opp.tokenIn.address, dst := opp.tokenOut.address
            amount := loanAmount, fromAddress := walletAddress, slippage := 1 }
        match w.quoteService buyReq with
        | .error _ => failOutcome .buildBuyFailed calls [buyReq]
        | .ok buySwap =>
            let sellReq : SwapRequest :=
              { src := opp.tokenOut.address, dst := opp.tokenIn.address
                amount := ⌊buySwap.toAmount⌋
                fromAddress := walletAddress, slippage := 1 }
            match w.quoteService sellReq with
            | .error _ => failOutcome .buildSellFailed calls [buyReq, sellReq]
            | .ok sellSwap =>
                afterSwaps config env w opp calls pk buyReq sellReq buySwap
                  sellSwap

/-- `executeArbitrageTrade` after the private-key format check: missing-key
check for real trading, MATIC balance query (whose insufficient-balance
throw the source swallows in its own catch, logging a warning and
continuing), gas-price gate, then the simulation short-circuit or the
real branch. -/
def execAfterKeyCheck (config : BotConfig) (env : Env) (w : World)
    (opp : ArbitrageOpportunity) (isSimulation : Bool)
    (pk? : Option String) : ExecOutcome :=
  if ¬isSimulation ∧ pk? = none then
    failOutcome .keyNotConfigured [] []
  else
    let balanceCalls : List ChainCall :=
      match pk?, isSimulation with
      | some pk, false => [ChainCall.nativeBalance (w.addressOf pk)]
      | _, _ => []
    let calls1 := balanceCalls ++ [ChainCall.gasPrice]
    if w.gasPriceGwei > config.maxGasPriceGwei.getD 60 then
      failOutcome .gasTooHigh calls1 []
    else if isSimulation then
      { success := true, txHash := some ("0x" ++ w.rand1 ++ w.rand2)
        error := none, chainCalls := calls1, swapRequests := [] }
    else realBranch config env w opp calls1 pk?

/-- `tradeExecutor.executeArbitrageTrade`: configuration lookup,
real-trading enablement check, private-key resolution and format
validation, then `execAfterKeyCheck`.  A thrown error surfaces as the
catch block's failed result. -/
def executeArbitrageTrade (config? : Option BotConfig) (env : Env)
    (w : World) (opp : ArbitrageOpportunity) (isSimulation : Bool) :
    ExecOutcome :=
  match config? with
  | none => failOutcome .configNotFound [] []
  | some config =>
      if ¬isSimulation ∧ ¬config.enableRealTrading then
        failOutcome .realTradingDisabled [] []
      else
        match resolvedNormalizedKey config env with
        | some pk =>
            if pk.length ≠ 66 then failOutcome .invalidKeyFormat [] []
            else execAfterKeyCheck config env w opp isSimulation (some pk)
        | none => execAfterKeyCheck config env w opp isSimulation none

/-- `validateOpportunity` from server/tradeExecutor.ts: reject when older
than 30 s or when the net profit percent is below the currently configured
threshold (`config?.minNetProfitPercent ?? '0.15'`, pre-resolved here). -/
def validateOpportunity (minNetProfitPercent : ℚ)
    (opp : ArbitrageOpportunity) (now : ℤ) : Bool :=
  if now - opp.timestamp > 30000 then false
  else if opp.netProfitPercent < minNetProfitPercent then false
  else true

/-- Concrete configuration: simulation-style, no key, real trading off. -/
def cfgSim : BotConfig :=
  { enableRealTrading := false, networkMode := "mainnet"
    privateKey := none, oneinchApiKey := none, flashLoanContract := none
    maxGasPriceGwei := some 60 }

/-- Concrete environment with no fallbacks. -/
def env0 : Env := { privateKeyEnv := none, arbitrageContractEnv := none }

/-- Concrete benign world: gas 30 Gwei, constant wallet address, failing
quote service. -/
def world0 : World :=
  { gasPriceGwei := 30
    nativeBalanceOf := fun _ => 0
    codeAt := fun _ => "0x"
    quoteService := fun _ => Except.error "unavailable"
    flashLoanSvc := fun _ _ _ _ _ =>
      { success := false, txHash := none, error := some "revert" }
    addressOf := fun _ => "0xSameAddress"
    rand1 := "abc123", rand2 := "def456" }

/-- **C2 (code bug).** The freshness re-check exists (`validateOpportunity`
rejects a 31-second-old candidate) but no execution attempt invokes it: a
31-second-old opportunity still executes to success in simulation mode, and
the pipeline runs its later stages (the gas-price chain call happens). -/
theorem stale_opportunity_still_executes :
    validateOpportunity (15 / 100) witOpp 31000 = false ∧
    (executeArbitrageTrade (some cfgSim) env0 world0 witOpp true).success =
      true ∧
    (executeArbitrageTrade (some cfgSim) env0 world0 witOpp true).chainCalls =
      [ChainCall.gasPrice] := by
  refine ⟨?_, ?_, ?_⟩ <;> decide

/-- **C4 (code bug).** An opportunity handed to an execution attempt (a
member of the cycle's `dispatched` list) remains in the Registry with its
validity flag still `true`: no code path ever writes `isValid := false`
after consumption. -/
theorem consumed_opportunity_keeps_isValid :
    (scanUpdate [] [witOpp] 1000).dispatched = [witOpp] ∧
    (scanUpdate [] [witOpp] 1000).registry = [witOpp] ∧
    witOpp.isValid = true :=
  ⟨rfl, rfl, rfl⟩

/-- Chain-call classifier for the flash-loan invocation. -/
def isFlashLoanCall : ChainCall → Bool
  | .flashLoan _ _ _ => true
  | _ => false

/-- Lowercase hexadecimal digit string (the alphabet of
`Math.random().toString(16).substring(2)`). -/
def isHexLower (s : String) : Bool :=
  s.data.all (fun c => c.isDigit || ('a' ≤ c && c ≤ 'f'))

/-- A syntactically valid placeholder transaction id: `0x` followed by
lowercase hex digits. -/
def isPlaceholderTxId (s : String) : Prop :=
  ∃ t, s = "0x" ++ t ∧ isHexLower t = true

/-- **C3 (amended).** Simulation-mode execution never performs the
flash-loan chain call; and whenever the attempt's preliminary checks pass
(configuration present, any resolved private key well-formed, gas price at
or below the ceiling) it returns `success = true` with the placeholder
transaction id `0x` + the two random hex fragments — a syntactically valid
placeholder whenever those fragments are hex, as `Math.random` output is. -/
theorem simulation_no_flashloan_and_success
    (config? : Option BotConfig) (env : Env) (w : World)
    (opp : ArbitrageOpportunity) :
    ((executeArbitrageTrade config? env w opp true).chainCalls.all
        (fun c => !isFlashLoanCall c)) = true ∧
    (∀ config, config? = some config →
      (∀ pk, resolvedNormalizedKey config env = some pk → pk.length = 66) →
      w.gasPriceGwei ≤ config.maxGasPriceGwei.getD 60 →
      (executeArbitrageTrade config? env w opp true).success = true ∧
      (executeArbitrageTrade config? env w opp true).txHash =
        some ("0x" ++ w.rand1 ++ w.rand2) ∧
      (isHexLower w.rand1 = true → isHexLower w.rand2 = true →
        isPlaceholderTxId ("0x" ++ w.rand1 ++ w.rand2))) := by
  have hplace : isHexLower w.rand1 = true → isHexLower w.rand2 = true →
      isPlaceholderTxId ("0x" ++ w.rand1 ++ w.rand2) := by
    intro h1 h2
    refine ⟨w.rand1 ++ w.rand2, by rw [String.append_assoc], ?_⟩
    unfold isHexLower at h1 h2 ⊢
    rw [String.data_append, List.all_append, h1, h2]
    rfl
  cases config? with
  | none => exact ⟨rfl, fun config hc => by cases hc⟩
  | some config =>
      unfold executeArbitrageTrade
      dsimp only
      have hnotdis : ¬(¬(true : Bool) ∧ ¬config.enableRealTrading) := by
        intro hd
        exact hd.1 rfl
      rw [if_neg hnotdis]
      cases hres : resolvedNormalizedKey config env with
      | some pk =>
          dsimp only
          by_cases hlen : pk.length ≠ 66
          · rw [if_pos hlen]
            refine ⟨rfl, ?_⟩
            intro c hc hkey hgas
            obtain rfl := Option.some.inj hc
            exact absurd (hkey pk hres) hlen
          · rw [if_neg hlen]
            unfold execAfterKeyCheck
            have h1 : ¬(¬(true : Bool) ∧ (some pk : Option String) = none) := by
              intro hd
              exact hd.1 rfl
            rw [if_neg h1]
            by_cases hgas : w.gasPriceGwei > config.maxGasPriceGwei.getD 60
            · rw [if_pos hgas]
              refine ⟨rfl, ?_⟩
              intro c hc hkey hgle
              obtain rfl := Option.some.inj hc
              exact absurd hgas (not_lt.mpr hgle)
            · rw [if_neg hgas]
              exact ⟨rfl, fun c hc hkey hgle =>
                ⟨rfl, rfl, hplace⟩⟩
      | none =>
          dsimp only
          unfold execAfterKeyCheck
          have h1 : ¬(¬(true : Bool) ∧ (none : Option String) = none) := by
            intro hd
            exact hd.1 rfl
          rw [if_neg h1]
          by_cases hgas : w.gasPriceGwei > config.maxGasPriceGwei.getD 60
          · rw [if_pos hgas]
            refine ⟨rfl, ?_⟩
            intro c hc hkey hgle
            obtain rfl := Option.some.inj hc
            exact absurd hgas (not_lt.mpr hgle)
          · rw [if_neg hgas]
            exact ⟨rfl, fun c hc hkey hgle => ⟨rfl, rfl, hplace⟩⟩

/-- World identical to `world0` but with gas at 80 Gwei. -/
def worldHighGas : World := { world0 with gasPriceGwei := 80 }

/-- **C3 counterexample.** A simulation-mode attempt does not always return
`success = true`: with gas price 80 Gwei against the 60 Gwei ceiling the
attempt fails (the source throws `Gas price too high` before the simulation
branch). -/
theorem simulation_attempt_can_fail :
    (executeArbitrageTrade (some cfgSim) env0 worldHighGas witOpp true).success
        = false ∧
    (executeArbitrageTrade (some cfgSim) env0 worldHighGas witOpp true).error
        = some ExecErr.gasTooHigh := by
  refine ⟨?_, ?_⟩ <;> decide

/-- Witness for `simulation_no_flashloan_and_success` at a concrete input
whose preliminary checks pass. -/
theorem simulation_success_witness :
    (executeArbitrageTrade (some cfgSim) env0 world0 witOpp true).success =
      true ∧
    (executeArbitrageTrade (some cfgSim) env0 world0 witOpp true).txHash =
      some "0xabc123def456" := by
  have hkey : ∀ pk, resolvedNormalizedKey cfgSim env0 = some pk →
      pk.length = 66 := by
    intro pk hpk
    have hnone : resolvedNormalizedKey cfgSim env0 = none := by decide
    rw [hnone] at hpk
    cases hpk
  have h := (simulation_no_flashloan_and_success (some cfgSim) env0 world0
    witOpp).2 cfgSim rfl hkey (by decide)
  refine ⟨h.1, ?_⟩
  rw [h.2.1]
  decide

/-- The private key an execution attempt would use, from configuration or
environment (`config.privateKey?.trim() || process.env.PRIVATE_KEY`; the
environment value alone when no configuration is found). -/
def attemptKey (config? : Option BotConfig) (env : Env) : Option String :=
  match config? with
  | none => env.privateKeyEnv
  | some c => resolvedKey c env

/-- **C10 (amended).** If a private key is present whose length after 0x
normalization is not 66, every execution attempt fails before any chain
interaction; when the configuration is present and the attempt passes the
earlier checks (simulation mode, or real trading enabled), the failure is
specifically the invalid-key-format error — including simulation-mode
attempts, which otherwise require no key at all.  (When an earlier
configuration check fails first, the attempt still fails with zero chain
calls, but with that earlier error.) -/
theorem invalid_key_always_fails_before_chain
    (config? : Option BotConfig) (env : Env) (w : World)
    (opp : ArbitrageOpportunity) (isSim : Bool) (k : String)
    (hk : attemptKey config? env = some k)
    (hbad : (normalizeKey k).length ≠ 66) :
    (executeArbitrageTrade config? env w opp isSim).chainCalls = [] ∧
    (executeArbitrageTrade config? env w opp isSim).success = false ∧
    ∀ config, config? = some config → (isSim = true ∨
        config.enableRealTrading = true) →
      (executeArbitrageTrade config? env w opp isSim).error =
        some ExecErr.invalidKeyFormat := by
  cases config? with
  | none => exact ⟨rfl, rfl, fun config hc => by cases hc⟩
  | some config =>
      have hres : resolvedNormalizedKey config env = some (normalizeKey k) := by
        unfold resolvedNormalizedKey
        unfold attemptKey at hk
        dsimp only at hk
        rw [hk]
        rfl
      unfold executeArbitrageTrade
      dsimp only
      by_cases hd : ¬(isSim = true) ∧ ¬(config.enableRealTrading = true)
      · rw [if_pos hd]
        refine ⟨rfl, rfl, ?_⟩
        intro c hc hor
        obtain rfl := Option.some.inj hc
        rcases hor with h | h
        · exact absurd h hd.1
        · exact absurd h hd.2
      · rw [if_neg hd]
        rw [hres]
        dsimp only
        rw [if_pos hbad]
        exact ⟨rfl, rfl, fun c hc hor => rfl⟩

/-- Configuration with real trading disabled and a malformed private key. -/
def cfgDisabledBadKey : BotConfig :=
  { enableRealTrading := false, networkMode := "mainnet"
    privateKey := some "0x123", oneinchApiKey := none
    flashLoanContract := none, maxGasPriceGwei := some 60 }

/-- **C10 counterexample.** A malformed private key does not always produce
the invalid-key-format error: with real trading disabled, a real-mode
attempt carrying the malformed key `0x123` fails with the
real-trading-disabled error instead (the key-format check is preempted). -/
theorem malformed_key_error_preempted :
    attemptKey (some cfgDisabledBadKey) env0 = some "0x123" ∧
    (normalizeKey "0x123").length ≠ 66 ∧
    (executeArbitrageTrade (some cfgDisabledBadKey) env0 world0 witOpp
        false).error = some ExecErr.realTradingDisabled ∧
    ExecErr.realTradingDisabled ≠ ExecErr.invalidKeyFormat := by
  refine ⟨?_, ?_, ?_, ?_⟩ <;> decide

/-- Configuration used by the C10 witness: simulation-style, malformed key. -/
def cfgBadKeySim : BotConfig :=
  { enableRealTrading := false, networkMode := "mainnet"
    privateKey := some "0xdead", oneinchApiKey := none
    flashLoanContract := none, maxGasPriceGwei := some 60 }

/-- Witness for `invalid_key_always_fails_before_chain`: a simulation-mode
attempt with the malformed key `0xdead` performs zero chain calls and fails
with the invalid-key-format error. -/
theorem invalid_key_witness :
    attemptKey (some cfgBadKeySim) env0 = some "0xdead" ∧
    (normalizeKey "0xdead").length ≠ 66 ∧
    (executeArbitrageTrade (some cfgBadKeySim) env0 world0 witOpp
        true).chainCalls = [] ∧
    (executeArbitrageTrade (some cfgBadKeySim) env0 world0 witOpp
        true).success = false ∧
    (executeArbitrageTrade (some cfgBadKeySim) env0 world0 witOpp
        true).error = some ExecErr.invalidKeyFormat := by
  have h := invalid_key_always_fails_before_chain (some cfgBadKeySim) env0
    world0 witOpp true "0xdead" (by decide) (by decide)
  exact ⟨by decide, by decide, h.1, h.2.1,
    h.2.2 cfgBadKeySim rfl (Or.inl rfl)⟩

/-- The quote-service request trace of a real-mode attempt, as a function
of the derived wallet address only (the private key enters nowhere else in
any request). -/
def requestsFor (config : BotConfig) (w : World)
    (opp : ArbitrageOpportunity) (addr : String) : List SwapRequest :=
  if ¬config.enableRealTrading then []
  else if w.gasPriceGwei > config.maxGasPriceGwei.getD 60 then []
  else if strTrim (config.oneinchApiKey.getD "") = "" then []
  else
    let buyReq : SwapRequest :=
      { src := opp.tokenIn.address, dst := opp.tokenOut.address
        amount := ⌊opp.flashLoanAmount * 10 ^ opp.tokenIn.decimals⌋
        fromAddress := addr, slippage := 1 }
    match w.quoteService buyReq with
    | .error _ => [buyReq]
    | .ok buySwap =>
        [buyReq,
          { src := opp.tokenOut.address, dst := opp.tokenIn.address
            amount := ⌊buySwap.toAmount⌋, fromAddress := addr, slippage := 1 }]

/-- `afterSwaps` never issues further quote-service requests: its request
trace is always the two legs already built. -/
theorem afterSwaps_swapRequests (config : BotConfig) (env : Env) (w : World)
    (opp : ArbitrageOpportunity) (calls : List ChainCall) (pk : String)
    (buyReq sellReq : SwapRequest) (buySwap sellSwap : SwapResponse) :
    (afterSwaps config env w opp calls pk buyReq sellReq buySwap
        sellSwap).swapRequests = [buyReq, sellReq] := by
  unfold afterSwaps failOutcome
  repeat' (first | rfl | split | dsimp only)

/-- The full attempt's request trace, for a real-mode run whose configured
key is usable, equals `requestsFor` at the derived wallet address. -/
theorem executeArbitrageTrade_swapRequests (cfg : BotConfig) (env : Env)
    (w : World) (opp : ArbitrageOpportunity) (k : String)
    (hne : strTrim k ≠ "")
    (hlen : (normalizeKey (strTrim k)).length = 66) :
    (executeArbitrageTrade (some { cfg with privateKey := some k }) env w opp
        false).swapRequests =
      requestsFor cfg w opp (w.addressOf (normalizeKey (strTrim k))) := by
  have hres : resolvedNormalizedKey { cfg with privateKey := some k } env =
      some (normalizeKey (strTrim k)) := by
    unfold resolvedNormalizedKey resolvedKey
    dsimp only
    rw [if_neg hne]
    rfl
  unfold executeArbitrageTrade
  dsimp only
  unfold requestsFor
  by_cases hert : cfg.enableRealTrading = true
  · have hcond : ¬(¬(false = true) ∧ ¬(cfg.enableRealTrading = true)) := by
      intro hd
      exact hd.2 hert
    have hnert : ¬(¬(cfg.enableRealTrading = true)) := fun hn => hn hert
    rw [if_neg hcond, hres, if_neg hnert]
    dsimp only
    have hlen' : ¬((normalizeKey (strTrim k)).length ≠ 66) :=
      fun hx => hx hlen
    rw [if_neg hlen']
    unfold execAfterKeyCheck
    dsimp only
    have hkey : ¬(¬(false = true) ∧
        (some (normalizeKey (strTrim k)) : Option String) = none) := by
      intro hd
      cases hd.2
    rw [if_neg hkey]
    by_cases hgas : w.gasPriceGwei > cfg.maxGasPriceGwei.getD 60
    · rw [if_pos hgas, if_pos hgas]
      rfl
    · rw [if_neg hgas, if_neg hgas]
      have hfs : ((false : Bool) = true) = False := by simp
      rw [if_neg (show ¬((false : Bool) = true) by simp)]
      unfold realBranch
      dsimp only
      by_cases hapi : strTrim (cfg.oneinchApiKey.getD "") = ""
      · rw [if_pos hapi, if_pos hapi]
        rfl
      · rw [if_neg hapi, if_neg hapi]
        cases hq : w.quoteService
            { src := opp.tokenIn.address, dst := opp.tokenOut.address
              amount := ⌊opp.flashLoanAmount * 10 ^ opp.tokenIn.decimals⌋
              fromAddress := w.addressOf (normalizeKey (strTrim k))
              slippage := 1 } with
        | error e => rfl
        | ok buySwap =>
            dsimp only
            cases hq2 : w.quoteService
                { src := opp.tokenOut.address, dst := opp.tokenIn.address
                  amount := ⌊buySwap.toAmount⌋
                  fromAddress := w.addressOf (normalizeKey (strTrim k))
                  slippage := 1 } with
            | error e => rfl
            | ok sellSwap => exact afterSwaps_swapRequests _ _ _ _ _ _ _ _ _ _
  · have hcond : (¬(false = true) ∧ ¬(cfg.enableRealTrading = true)) :=
      ⟨by simp, hert⟩
    rw [if_pos hcond, if_pos hert]
    rfl

/-- Every request `requestsFor` produces carries the derived address in its
`from` field. -/
theorem requestsFor_fromAddress (config : BotConfig) (w : World)
    (opp : ArbitrageOpportunity) (addr : String) :
    ∀ r ∈ requestsFor config w opp addr, r.fromAddress = addr := by
  unfold requestsFor
  split
  · intro r hr
    cases hr
  · split
    · intro r hr
      cases hr
    · split
      · intro r hr
        cases hr
      · dsimp only
        split
        · intro r hr
          rcases List.mem_singleton.mp hr with rfl
          rfl
        · intro r hr
          rcases List.mem_cons.mp hr with rfl | hr2
          · rfl
          · rcases List.mem_singleton.mp hr2 with rfl
            rfl

/-- **C9.** In real-mode execution the raw signing credential never reaches
the quote/route service: every `buildSwapTransaction` request carries only
the wallet address derived from the private key, and two runs whose
(usable) private keys differ but derive the same address issue identical
quote-source request traces. -/
theorem private_key_noninterference (cfg : BotConfig) (env : Env) (w : World)
    (opp : ArbitrageOpportunity) (k1 k2 : String)
    (hne1 : strTrim k1 ≠ "")
    (hlen1 : (normalizeKey (strTrim k1)).length = 66)
    (hne2 : strTrim k2 ≠ "")
    (hlen2 : (normalizeKey (strTrim k2)).length = 66)
    (haddr : w.addressOf (normalizeKey (strTrim k1)) =
      w.addressOf (normalizeKey (strTrim k2))) :
    (executeArbitrageTrade (some { cfg with privateKey := some k1 }) env w
        opp false).swapRequests =
      (executeArbitrageTrade (some { cfg with privateKey := some k2 }) env w
        opp false).swapRequests ∧
    ∀ r ∈ (executeArbitrageTrade (some { cfg with privateKey := some k1 })
        env w opp false).swapRequests,
      r.fromAddress = w.addressOf (normalizeKey (strTrim k1)) := by
  constructor
  · rw [executeArbitrageTrade_swapRequests cfg env w opp k1 hne1 hlen1,
      executeArbitrageTrade_swapRequests cfg env w opp k2 hne2 hlen2, haddr]
  · rw [executeArbitrageTrade_swapRequests cfg env w opp k1 hne1 hlen1]
    exact requestsFor_fromAddress cfg w opp
      (w.addressOf (normalizeKey (strTrim k1)))

/-- Config for the C9 witness: real trading enabled, API key present. -/
def cfg9 : BotConfig :=
  { enableRealTrading := true, networkMode := "mainnet"
    privateKey := none, oneinchApiKey := some "APIKEY"
    flashLoanContract := none, maxGasPriceGwei := some 60 }

/-- First witness key (66 characters). -/
def key1 : String :=
  "0x1111111111111111111111111111111111111111111111111111111111111111"

/-- Second witness key (66 characters), deriving the same address under
`world0`. -/
def key2 : String :=
  "0x2222222222222222222222222222222222222222222222222222222222222222"

/-- Witness for `private_key_noninterference`: two different well-formed
keys deriving the same address issue identical quote-source requests. -/
theorem private_key_noninterference_witness :
    (executeArbitrageTrade (some { cfg9 with privateKey := some key1 }) env0
        world0 witOpp false).swapRequests =
      (executeArbitrageTrade (some { cfg9 with privateKey := some key2 })
        env0 world0 witOpp false).swapRequests :=
  (private_key_noninterference cfg9 env0 world0 witOpp key1 key2
    (by decide) (by decide) (by decide) (by decide) rfl).1

/-!  ## One full scan cycle (`scan` in server/opportunityScanner.ts)  -/

/-- The structured activity-log entries one `scan` cycle emits, by kind. -/
inductive LogKind
  | step1Preparation
  | gasSkip
  | step2DexConnect
  | step3PairAnalysis
  | step4Results
  | step4NoResults
  | autoExecuteIntent
deriving DecidableEq, Repr

/-- One `getQuote` request to the DEX aggregator. -/
structure QuoteRequest where
  src : String
  dst : String
  amount : ℚ
deriving DecidableEq, Repr

/-- All ordered index pairs `i < j` of fulfilled quotes (the double loop of
`scanTokenPair` skips a pair when either settled promise was rejected). -/
def fulfilledPairs : List (Option Quote) → List (Quote × Quote)
  | [] => []
  | q :: rest =>
      (match q with
       | some a => (rest.filterMap id).map (fun b => (a, b))
       | none => []) ++ fulfilledPairs rest

/-- `scanTokenPair` restricted to its comparison phase: all pairwise
comparisons of the settled quotes of one token pair. -/
def scanTokenPair (cfg : ScannerConfig) (loanAmount gasGwei : ℚ)
    (tokenIn tokenOut : String) (now : ℤ) (rnd : String)
    (quotes : List (Option Quote)) : List ArbitrageOpportunity :=
  (fulfilledPairs quotes).filterMap
    (fun p => comparePair cfg loanAmount gasGwei tokenIn tokenOut now rnd
      p.1 p.2)

/-- What one `scan` cycle produces: its log trace, the `getQuote` requests
issued, the new candidates, and the registry afterwards. -/
structure ScanCycleResult where
  logs : List LogKind
  quoteRequests : List QuoteRequest
  newOpportunities : List ArbitrageOpportunity
  registry : List ArbitrageOpportunity
deriving Repr

/-- One `scan` cycle: the step-1 log, then the gas gate — above the ceiling
the cycle logs the skip and returns with no quote requests and the registry
untouched — otherwise three `getQuote` requests per configured pair (the
base quote and the two simulated-venue quotes each call `getQuote` once),
the comparison phase, insertion of all new candidates (each also dispatched,
logged with an auto-execution-intent entry), and finally the eviction
pass. -/
def scanCycle (cfg : ScannerConfig) (reg : List ArbitrageOpportunity)
    (pairs : List (String × String)) (loanAmount gasGwei : ℚ)
    (quotesFor : String → String → List (Option Quote))
    (now evictNow : ℤ) (rnd : String) : ScanCycleResult :=
  if gasGwei > cfg.maxGasPriceGwei then
    { logs := [.step1Preparation, .gasSkip], quoteRequests := []
      newOpportunities := [], registry := reg }
  else
    let amountWei := loanAmount * 10 ^ 6
    let requests := pairs.flatMap (fun p =>
      [{ src := p.1, dst := p.2, amount := amountWei },
        { src := p.1, dst := p.2, amount := amountWei },
        { src := p.1, dst := p.2, amount := amountWei }])
    let newOpps := pairs.flatMap (fun p =>
      scanTokenPair cfg loanAmount gasGwei p.1 p.2 now rnd
        (quotesFor p.1 p.2))
    let resultLog :=
      if newOpps.isEmpty then LogKind.step4NoResults else LogKind.step4Results
    { logs := [.step1Preparation, .step2DexConnect, .step3PairAnalysis,
        resultLog] ++ newOpps.map (fun _ => .autoExecuteIntent)
      quoteRequests := requests
      newOpportunities := newOpps
      registry := evictStale (newOpps.foldl registrySet reg) evictNow }

/-- **C8.** When the gas price exceeds the ceiling, the scan cycle emits
exactly one gas-too-high skip log entry, issues no quote requests, finds no
candidates, and leaves the Registry untouched. -/
theorem gas_gate_skips_cycle (cfg : ScannerConfig)
    (reg : List ArbitrageOpportunity) (pairs : List (String × String))
    (loanAmount gasGwei : ℚ)
    (quotesFor : String → String → List (Option Quote))
    (now evictNow : ℤ) (rnd : String)
    (h : gasGwei > cfg.maxGasPriceGwei) :
    (scanCycle cfg reg pairs loanAmount gasGwei quotesFor now evictNow
        rnd).logs.count LogKind.gasSkip = 1 ∧
    (scanCycle cfg reg pairs loanAmount gasGwei quotesFor now evictNow
        rnd).quoteRequests = [] ∧
    (scanCycle cfg reg pairs loanAmount gasGwei quotesFor now evictNow
        rnd).newOpportunities = [] ∧
    (scanCycle cfg reg pairs loanAmount gasGwei quotesFor now evictNow
        rnd).registry = reg := by
  unfold scanCycle
  rw [if_pos h]
  exact ⟨rfl, rfl, rfl, rfl⟩

/-- Witness for `gas_gate_skips_cycle`: gas 80 Gwei against ceiling 60. -/
theorem gas_gate_skips_cycle_witness :
    (scanCycle scenarioConfig [witOpp] [("A", "B")] 10000 80
        (fun _ _ => []) 0 0 "r").logs.count LogKind.gasSkip = 1 ∧
    (scanCycle scenarioConfig [witOpp] [("A", "B")] 10000 80
        (fun _ _ => []) 0 0 "r").quoteRequests = [] ∧
    (scanCycle scenarioConfig [witOpp] [("A", "B")] 10000 80
        (fun _ _ => []) 0 0 "r").newOpportunities = [] ∧
    (scanCycle scenarioConfig [witOpp] [("A", "B")] 10000 80
        (fun _ _ => []) 0 0 "r").registry = [witOpp] :=
  gas_gate_skips_cycle scenarioConfig [witOpp] [("A", "B")] 10000 80
    (fun _ _ => []) 0 0 "r" (by decide)
